import Mathlib

/-!
Verification of the event validation, routing, and batch dispatch pipeline
of the pulsar-api gateway (src/internal/api/events.go), as a shallow
embedding in Lean.  The Go handler code is translated definition by
definition; the two external collaborators — `encoding/json.Marshal` and
the Pulsar producer's `Send` — are passed in as function parameters,
matching the spec's Broker Port interface `send(bytes) -> (messageID, error)`.
HTTP request decoding (gin's `ShouldBindJSON`) is likewise represented by
an `Except` input: the handler is modelled from the decode result onward,
with the decode-failure branch kept.
-/

namespace PulsarApi

/-- Arbitrary JSON payload values, as carried by Go's
`map[string]interface{}` after decoding a JSON body (a tagged union of
null / bool / number / string / array / object).  Numbers are represented
abstractly by `Int`; no code under verification inspects a payload value,
only the presence of keys. -/
inductive JsonVal where
  | null : JsonVal
  | bool : Bool → JsonVal
  | num : Int → JsonVal
  | str : String → JsonVal
  | arr : List JsonVal → JsonVal
  | obj : List (String × JsonVal) → JsonVal
deriving Repr

/-- A JSON object `map[string]interface{}`: an association list from field
name to value. -/
abbrev Payload := List (String × JsonVal)

/-- Go struct `EventRequest` (events.go lines 15-19). -/
structure EventRequest where
  eventType : String
  sourceSystem : String
  payload : Payload
deriving Repr

/-- Go struct `EventResponse` (events.go lines 21-29).  `MessageID` is a Go
string whose zero value "" is omitted from the JSON (`omitempty`); `Event`
is a possibly-nil pointer, modelled as an `Option`. -/
structure EventResponse where
  status : String
  topic : String
  bytes : Nat
  dryRun : Bool
  correlationID : String
  messageID : String
  event : Option EventRequest
deriving Repr

/-- Go struct `BatchItemResult` (events.go lines 31-40).  String and int
fields default to their Go zero values. -/
structure BatchItemResult where
  index : Nat
  status : String
  topic : String
  bytes : Nat
  messageID : String
  error : String
  correlationID : String
  event : Option EventRequest
deriving Repr

/-- Go struct `BatchResponse` (events.go lines 42-47). -/
structure BatchResponse where
  status : String
  count : Nat
  dryRun : Bool
  results : List BatchItemResult
deriving Repr

/-- Package-level routing table `eventTypeTopicMap` (events.go lines 50-54):
eventType → Pulsar topic. -/
def eventTypeTopicMap : List (String × String) :=
  [("SIGNALITIEK_ERROR", "persistent://tenant/ns/signalitiek-errors"),
   ("WAGE_ERROR", "persistent://tenant/ns/wage-errors")]

/-- Key-presence test on a payload: Go's `_, ok := req.Payload[k]`. -/
def hasKey (p : Payload) (k : String) : Bool :=
  (p.lookup k).isSome

/-- `validateEventSchema` (events.go lines 57-72): per-type required-field
checks, returning the first missing-field error, and accepting every other
event type. -/
def validateEventSchema (req : EventRequest) : Except String Unit :=
  if req.eventType = "SIGNALITIEK_ERROR" then
    if !(hasKey req.payload "errorCode") then
      .error "payload.errorCode is required for SIGNALITIEK_ERROR"
    else if !(hasKey req.payload "employerId") then
      .error "payload.employerId is required for SIGNALITIEK_ERROR"
    else .ok ()
  else if req.eventType = "WAGE_ERROR" then
    if !(hasKey req.payload "dossierId") then
      .error "payload.dossierId is required for WAGE_ERROR"
    else .ok ()
  else .ok ()

/-- Go struct `EventHandler` (events.go lines 74-80).  The `Logger` and
`Producer` fields are external collaborators (logging is pure effect; the
producer is passed to the handlers as a send function), so only the
configuration data is part of the state. -/
structure EventHandler where
  topic : String
  schemaMap : List (String × String)
  dryRun : Bool
deriving Repr

/-- `NewEventHandler` (events.go lines 82-90), restricted to the
configuration fields. -/
def NewEventHandler (topic : String) (dryRun : Bool)
    (schemaMap : List (String × String)) : EventHandler :=
  { topic := topic, schemaMap := schemaMap, dryRun := dryRun }

/-- `resolveTopic` (events.go lines 92-98): exact lookup in
`eventTypeTopicMap`, falling back to the handler's default topic. -/
def resolveTopic (h : EventHandler) (req : EventRequest) : String :=
  match eventTypeTopicMap.lookup req.eventType with
  | some t => t
  | none => h.topic

/-- Serialized message bytes. -/
abbrev Bytes := List Nat

/-- The external `encoding/json.Marshal` call on an `EventRequest`:
`(bytes, error)`. -/
abbrev MarshalFn := EventRequest → Except String Bytes

/-- The Broker Port: the Pulsar producer's
`Send(msg []byte) (string, error)`. -/
abbrev SendFn := Bytes → Except String String

/-- A reply of the single-event handler: either one of the `gin.H` error
bodies (with HTTP status, `status`, `error`, optional `details`,
`correlationId`) or an `EventResponse` body with its HTTP status. -/
inductive SingleReply where
  | errJson (httpStatus : Nat) (status errMsg : String)
      (details : Option String) (correlationId : String)
  | ok (httpStatus : Nat) (resp : EventResponse)
deriving Repr

/-- HTTP status code of a single-event reply. -/
def SingleReply.httpStatus : SingleReply → Nat
  | .errJson s _ _ _ _ => s
  | .ok s _ => s

/-- `PostEvent` (events.go lines 101-196), from the JSON-decode result
onward, also returning the list of payloads handed to the Broker Port's
send operation. -/
def PostEvent (h : EventHandler) (marshal : MarshalFn) (send : SendFn)
    (corrID : String) (decoded : Except String EventRequest) :
    SingleReply × List Bytes :=
  match decoded with
  | .error e => (.errJson 400 "error" "invalid request body" (some e) corrID, [])
  | .ok req =>
    match validateEventSchema req with
    | .error e =>
      (.errJson 400 "error" "schema validation failed" (some e) corrID, [])
    | .ok _ =>
      match marshal req with
      | .error _ =>
        (.errJson 500 "error" "internal serialization error" none corrID, [])
      | .ok payloadBytes =>
        let topic := resolveTopic h req
        let resp : EventResponse :=
          { status := "", topic := topic, bytes := payloadBytes.length,
            dryRun := h.dryRun, correlationID := corrID, messageID := "",
            event := some req }
        if h.dryRun then
          (.ok 200 { resp with status := "dry-run" }, [])
        else
          match send payloadBytes with
          | .error e =>
            (.errJson 500 "error" "failed sending to Pulsar" (some e) corrID,
             [payloadBytes])
          | .ok msgID =>
            (.ok 201 { resp with status := "sent", messageID := msgID },
             [payloadBytes])

/-- One iteration of the `PostBatch` loop body (events.go lines 220-265):
the result appended for index `i` and the payloads sent for this item. -/
def processItem (h : EventHandler) (marshal : MarshalFn) (send : SendFn)
    (corrID : String) (i : Nat) (req : EventRequest) :
    BatchItemResult × List Bytes :=
  let r : BatchItemResult :=
    { index := i, status := "", topic := "", bytes := 0, messageID := "",
      error := "", correlationID := corrID, event := some req }
  match validateEventSchema req with
  | .error e =>
    ({ r with status := "error", error := "schema validation failed: " ++ e },
     [])
  | .ok _ =>
    match marshal req with
    | .error e =>
      ({ r with status := "error", error := "marshal error: " ++ e }, [])
    | .ok payloadBytes =>
      let topic := resolveTopic h req
      let r := { r with topic := topic, bytes := payloadBytes.length }
      if h.dryRun then
        ({ r with status := "dry-run" }, [])
      else
        match send payloadBytes with
        | .error e =>
          ({ r with status := "error", error := "send error: " ++ e },
           [payloadBytes])
        | .ok msgID =>
          ({ r with status := "sent", messageID := msgID }, [payloadBytes])

/-- The `for i, req := range reqs` loop of `PostBatch` (events.go lines
218-265), started at index `i`: appends one result per item and collects
all payloads handed to the Broker Port. -/
def batchLoop (h : EventHandler) (marshal : MarshalFn) (send : SendFn)
    (corrID : String) (i : Nat) :
    List EventRequest → List BatchItemResult × List Bytes
  | [] => ([], [])
  | req :: rest =>
    let (r, s) := processItem h marshal send corrID i req
    let (rs, ss) := batchLoop h marshal send corrID (i + 1) rest
    (r :: rs, s ++ ss)

/-- A reply of the batch handler: the `gin.H` 400 body for a malformed
batch, or a `BatchResponse` with its HTTP status. -/
inductive BatchReply where
  | errJson (httpStatus : Nat) (status errMsg details correlationId : String)
  | ok (httpStatus : Nat) (resp : BatchResponse)
deriving Repr

/-- HTTP status code of a batch reply. -/
def BatchReply.httpStatus : BatchReply → Nat
  | .errJson s _ _ _ _ => s
  | .ok s _ => s

/-- `PostBatch` (events.go lines 199-280), from the JSON-decode result
onward, also returning the payloads handed to the Broker Port. -/
def PostBatch (h : EventHandler) (marshal : MarshalFn) (send : SendFn)
    (corrID : String) (decoded : Except String (List EventRequest)) :
    BatchReply × List Bytes :=
  match decoded with
  | .error e => (.errJson 400 "error" "invalid batch body" e corrID, [])
  | .ok reqs =>
    let (results, sends) := batchLoop h marshal send corrID 0 reqs
    let status := if h.dryRun then "dry-run" else "sent"
    (.ok 200 { status := status, count := results.length, dryRun := h.dryRun,
               results := results }, sends)

/-! ## Structural lemmas about the batch loop -/

/-- Every branch of the loop body produces a result carrying the item's
index, the request correlation id, and an echo of the item's own event. -/
theorem processItem_projections (h : EventHandler) (m : MarshalFn)
    (s : SendFn) (corr : String) (i : Nat) (req : EventRequest) :
    (processItem h m s corr i req).1.index = i ∧
    (processItem h m s corr i req).1.correlationID = corr ∧
    (processItem h m s corr i req).1.event = some req := by
  unfold processItem
  split
  · exact ⟨rfl, rfl, rfl⟩
  · split
    · exact ⟨rfl, rfl, rfl⟩
    · dsimp only
      split
      · exact ⟨rfl, rfl, rfl⟩
      · split
        · exact ⟨rfl, rfl, rfl⟩
        · exact ⟨rfl, rfl, rfl⟩

/-- The loop emits exactly one result per input item. -/
theorem batchLoop_length (h : EventHandler) (m : MarshalFn) (s : SendFn)
    (corr : String) (i : Nat) (reqs : List EventRequest) :
    (batchLoop h m s corr i reqs).1.length = reqs.length := by
  induction reqs generalizing i with
  | nil => rfl
  | cons req rest ih => simp [batchLoop, ih]

/-- Pointwise characterization of the loop: the entry at position `j` is
the loop body applied to the `j`-th input alone, at index `i + j`. -/
theorem batchLoop_getElem? (h : EventHandler) (m : MarshalFn) (s : SendFn)
    (corr : String) (i : Nat) (reqs : List EventRequest) (j : Nat) :
    (batchLoop h m s corr i reqs).1[j]? =
      reqs[j]?.map (fun req => (processItem h m s corr (i + j) req).1) := by
  induction reqs generalizing i j with
  | nil => simp [batchLoop]
  | cons req rest ih =>
    cases j with
    | zero => simp [batchLoop]
    | succ j =>
      simp only [batchLoop, List.getElem?_cons_succ, ih (i + 1) j]
      rw [Nat.add_assoc, Nat.add_comm 1 j]

/-- In dry-run mode the loop body never hands a payload to the Broker
Port. -/
theorem processItem_sends_of_dryRun (h : EventHandler) (m : MarshalFn)
    (s : SendFn) (corr : String) (i : Nat) (req : EventRequest)
    (hdry : h.dryRun = true) :
    (processItem h m s corr i req).2 = [] := by
  unfold processItem
  split
  · rfl
  · split
    · rfl
    · simp [hdry]

/-- In dry-run mode the whole loop never hands a payload to the Broker
Port. -/
theorem batchLoop_sends_of_dryRun (h : EventHandler) (m : MarshalFn)
    (s : SendFn) (corr : String) (i : Nat) (reqs : List EventRequest)
    (hdry : h.dryRun = true) :
    (batchLoop h m s corr i reqs).2 = [] := by
  induction reqs generalizing i with
  | nil => rfl
  | cons req rest ih =>
    simp [batchLoop, ih, processItem_sends_of_dryRun _ _ _ _ _ _ hdry]

/-! ## Claim theorems -/

/-- C1: For every batch submitted to the batch handler, the reply is the
200 response whose `j`-th result entry is the loop body applied to the
`j`-th input event alone — so a validation, serialization, or send failure
on one item never aborts processing of the items after it, every
subsequent item is still validated and dispatched, and each entry's
outcome is a function of its own event only, independent of the earlier
failures. -/
theorem batch_failure_isolation (h : EventHandler) (m : MarshalFn)
    (s : SendFn) (corr : String) (reqs : List EventRequest) :
    ∃ resp sends, PostBatch h m s corr (.ok reqs) = (.ok 200 resp, sends) ∧
      ∀ j : Nat, resp.results[j]? =
        reqs[j]?.map (fun req => (processItem h m s corr j req).1) := by
  refine ⟨_, _, rfl, ?_⟩
  intro j
  simpa using batchLoop_getElem? h m s corr 0 reqs j

/-- C2: For every input list of `N` events the batch handler returns
exactly `N` result entries and reports `count = N`; no item is dropped,
entries appear in submission order, and the entry at position `j` carries
zero-based index `j`. -/
theorem batch_count_and_indices (h : EventHandler) (m : MarshalFn)
    (s : SendFn) (corr : String) (reqs : List EventRequest) :
    ∃ resp sends, PostBatch h m s corr (.ok reqs) = (.ok 200 resp, sends) ∧
      resp.count = reqs.length ∧
      resp.results.length = reqs.length ∧
      ∀ j : Nat, resp.results[j]?.map BatchItemResult.index =
        reqs[j]?.map (fun _ => j) := by
  refine ⟨_, _, rfl, ?_, ?_, ?_⟩
  · simpa using batchLoop_length h m s corr 0 reqs
  · simpa using batchLoop_length h m s corr 0 reqs
  · intro j
    have := batchLoop_getElem? h m s corr 0 reqs j
    simp only [Nat.zero_add] at this
    simp only [this, Option.map_map]
    cases reqs[j]? with
    | none => rfl
    | some req =>
      simp [Function.comp, (processItem_projections h m s corr j req).1]

/-- C4: Validation of a `SIGNALITIEK_ERROR` event fails exactly when the
payload lacks `errorCode` or `employerId`, with the error message naming
the missing key; validation of a `WAGE_ERROR` event fails exactly when the
payload lacks `dossierId`; every other event type passes validation. -/
theorem validateEventSchema_characterization (req : EventRequest) :
    (req.eventType = "SIGNALITIEK_ERROR" →
       (validateEventSchema req = .ok () ↔
          hasKey req.payload "errorCode" = true ∧
          hasKey req.payload "employerId" = true) ∧
       (hasKey req.payload "errorCode" = false →
          validateEventSchema req =
            .error "payload.errorCode is required for SIGNALITIEK_ERROR") ∧
       (hasKey req.payload "errorCode" = true →
          hasKey req.payload "employerId" = false →
          validateEventSchema req =
            .error "payload.employerId is required for SIGNALITIEK_ERROR")) ∧
    (req.eventType = "WAGE_ERROR" →
       (validateEventSchema req = .ok () ↔
          hasKey req.payload "dossierId" = true) ∧
       (hasKey req.payload "dossierId" = false →
          validateEventSchema req =
            .error "payload.dossierId is required for WAGE_ERROR")) ∧
    (req.eventType ≠ "SIGNALITIEK_ERROR" → req.eventType ≠ "WAGE_ERROR" →
       validateEventSchema req = .ok ()) := by
  unfold validateEventSchema
  by_cases h1 : req.eventType = "SIGNALITIEK_ERROR" <;>
    by_cases h2 : req.eventType = "WAGE_ERROR" <;>
      simp_all
  cases hc : hasKey req.payload "errorCode" <;>
    cases he : hasKey req.payload "employerId" <;>
      simp_all [hc, he]

/-- Witness for C4: a `WAGE_ERROR` event with an empty payload fails
validation with the message naming `dossierId`. -/
theorem validateEventSchema_characterization_witness :
    validateEventSchema ⟨"WAGE_ERROR", "s", []⟩ =
      .error "payload.dossierId is required for WAGE_ERROR" :=
  ((validateEventSchema_characterization ⟨"WAGE_ERROR", "s", []⟩).2.1 rfl).2 rfl

/-- C5: The top-level `status` of every batch response is `dry-run` when
the handler is configured in dry-run mode and `sent` otherwise, whatever
the individual item outcomes are. -/
theorem batch_top_level_status (h : EventHandler) (m : MarshalFn)
    (s : SendFn) (corr : String) (reqs : List EventRequest) :
    ∃ resp sends, PostBatch h m s corr (.ok reqs) = (.ok 200 resp, sends) ∧
      resp.status = (if h.dryRun then "dry-run" else "sent") := by
  exact ⟨_, _, rfl, rfl⟩

/-- C6: `resolveTopic` never fails: for an event type present in the
routing table it returns exactly the mapped topic, and for an event type
absent from the table it returns the handler's configured default topic. -/
theorem resolveTopic_total (h : EventHandler) (req : EventRequest) :
    (∀ t : String, (req.eventType, t) ∈ eventTypeTopicMap →
       resolveTopic h req = t) ∧
    ((∀ t : String, (req.eventType, t) ∉ eventTypeTopicMap) →
       resolveTopic h req = h.topic) := by
  constructor
  · intro t ht
    simp only [eventTypeTopicMap, List.mem_cons, List.not_mem_nil, or_false,
      Prod.mk.injEq] at ht
    rcases ht with ⟨h1, h2⟩ | ⟨h1, h2⟩ <;> subst h2 <;>
      simp [resolveTopic, eventTypeTopicMap, List.lookup, h1]
  · intro hnone
    have h1 : req.eventType ≠ "SIGNALITIEK_ERROR" := fun he =>
      hnone "persistent://tenant/ns/signalitiek-errors"
        (by simp [eventTypeTopicMap, he])
    have h2 : req.eventType ≠ "WAGE_ERROR" := fun he =>
      hnone "persistent://tenant/ns/wage-errors"
        (by simp [eventTypeTopicMap, he])
    simp [resolveTopic, eventTypeTopicMap, List.lookup,
      beq_eq_false_iff_ne.mpr h1, beq_eq_false_iff_ne.mpr h2]

/-- Witness for C6: the routing-table entry for `WAGE_ERROR` is returned
exactly. -/
theorem resolveTopic_total_witness :
    resolveTopic (NewEventHandler "default-topic" false [])
      ⟨"WAGE_ERROR", "s", []⟩ = "persistent://tenant/ns/wage-errors" :=
  (resolveTopic_total (NewEventHandler "default-topic" false [])
    ⟨"WAGE_ERROR", "s", []⟩).1 "persistent://tenant/ns/wage-errors"
    (by simp [eventTypeTopicMap])

/-- C3: In dry-run mode, dispatching any event that passes schema
validation and serialization yields a `dry-run` outcome carrying the
resolved topic and the serialized byte size and no message identifier, in
the single handler and in each item of a batch alike, and the Broker
Port's send operation is never invoked for any batch. -/
theorem dry_run_dispatch (h : EventHandler) (m : MarshalFn) (s : SendFn)
    (corr : String) (req : EventRequest) (bs : Bytes) (i : Nat)
    (hdry : h.dryRun = true)
    (hv : validateEventSchema req = .ok ())
    (hm : m req = .ok bs) :
    PostEvent h m s corr (.ok req) =
      (.ok 200 { status := "dry-run", topic := resolveTopic h req,
                 bytes := bs.length, dryRun := true, correlationID := corr,
                 messageID := "", event := some req }, []) ∧
    processItem h m s corr i req =
      ({ index := i, status := "dry-run", topic := resolveTopic h req,
         bytes := bs.length, messageID := "", error := "",
         correlationID := corr, event := some req }, []) ∧
    ∀ reqs : List EventRequest, (PostBatch h m s corr (.ok reqs)).2 = [] := by
  refine ⟨?_, ?_, ?_⟩
  · simp [PostEvent, hv, hm, hdry]
  · simp [processItem, hv, hm, hdry]
  · intro reqs
    exact batchLoop_sends_of_dryRun h m s corr 0 reqs hdry

/-- Witness for C3: a concrete dry-run handler and a valid `WAGE_ERROR`
event. -/
theorem dry_run_dispatch_witness :
    (NewEventHandler "main-topic" true []).dryRun = true ∧
    validateEventSchema
      ⟨"WAGE_ERROR", "EverESSt", [("dossierId", .str "ABC-123")]⟩ = .ok () ∧
    PostEvent (NewEventHandler "main-topic" true [])
        (fun _ => .ok [10, 20, 30]) (fun _ => .error "broker down") "corr-1"
        (.ok ⟨"WAGE_ERROR", "EverESSt", [("dossierId", .str "ABC-123")]⟩) =
      (.ok 200 { status := "dry-run",
                 topic := resolveTopic (NewEventHandler "main-topic" true [])
                   ⟨"WAGE_ERROR", "EverESSt", [("dossierId", .str "ABC-123")]⟩,
                 bytes := ([10, 20, 30] : Bytes).length, dryRun := true,
                 correlationID := "corr-1", messageID := "",
                 event := some ⟨"WAGE_ERROR", "EverESSt",
                   [("dossierId", .str "ABC-123")]⟩ }, []) :=
  ⟨rfl, rfl,
   (dry_run_dispatch (NewEventHandler "main-topic" true [])
     (fun _ => .ok [10, 20, 30]) (fun _ => .error "broker down") "corr-1"
     ⟨"WAGE_ERROR", "EverESSt", [("dossierId", .str "ABC-123")]⟩
     [10, 20, 30] 0 rfl rfl rfl).1⟩

/-- C7 counterexample: a decodable, schema-valid, serializable single
event posted to a dry-run handler is answered with HTTP 200, not 201 —
refuting the claim that the single-event endpoint returns `201 Created`
in dry-run mode. -/
theorem single_event_dry_run_not_201 :
    (PostEvent (NewEventHandler "main-topic" true []) (fun _ => .ok [1])
        (fun _ => .ok "mid") "c"
        (.ok ⟨"OTHER_EVENT", "sys", []⟩)).1.httpStatus = 200 ∧
    (200 : Nat) ≠ 201 := ⟨rfl, by decide⟩

/-- C7 (amended): for every single-event request that decodes, passes
schema validation and serializes, the HTTP status is 201 Created when the
event is actually sent (live mode, broker success), and 200 OK in dry-run
mode. -/
theorem single_event_status_codes (h : EventHandler) (m : MarshalFn)
    (s : SendFn) (corr : String) (req : EventRequest) (bs : Bytes)
    (hv : validateEventSchema req = .ok ()) (hm : m req = .ok bs) :
    (h.dryRun = true → (PostEvent h m s corr (.ok req)).1.httpStatus = 200) ∧
    (∀ msgID : String, h.dryRun = false → s bs = .ok msgID →
       (PostEvent h m s corr (.ok req)).1.httpStatus = 201) := by
  constructor
  · intro hdry
    simp [PostEvent, hv, hm, hdry, SingleReply.httpStatus]
  · intro msgID hlive hs
    simp [PostEvent, hv, hm, hlive, hs, SingleReply.httpStatus]

/-- Witness for the amended C7: a live handler with an always-succeeding
broker answers 201. -/
theorem single_event_status_codes_witness :
    validateEventSchema ⟨"OTHER_EVENT", "sys", []⟩ = .ok () ∧
    (PostEvent (NewEventHandler "main-topic" false []) (fun _ => .ok [1])
        (fun _ => .ok "mid") "c"
        (.ok ⟨"OTHER_EVENT", "sys", []⟩)).1.httpStatus = 201 :=
  ⟨rfl,
   (single_event_status_codes (NewEventHandler "main-topic" false [])
     (fun _ => .ok [1]) (fun _ => .ok "mid") "c"
     ⟨"OTHER_EVENT", "sys", []⟩ [1] rfl rfl).2 "mid" rfl rfl⟩

/-- C8 counterexample: a batch request whose body fails to decode is
answered with HTTP 400, not 200 — refuting the claim that the batch
endpoint answers 200 OK for every request. -/
theorem batch_http_not_always_200 :
    (PostBatch (NewEventHandler "main-topic" false []) (fun _ => .ok [1])
        (fun _ => .ok "mid") "c" (.error "unexpected EOF")).1.httpStatus = 400 ∧
    (400 : Nat) ≠ 200 := ⟨rfl, by decide⟩

/-- C8 (amended): every batch request whose body decodes into an array of
events is answered 200 OK with the `{status, count, dryRun, results}`
body, however many items fail — per-item failures never change the HTTP
status; a request whose body fails to decode is answered with the 400
error body. -/
theorem batch_http_status (h : EventHandler) (m : MarshalFn) (s : SendFn)
    (corr : String) :
    (∀ reqs : List EventRequest, ∃ resp : BatchResponse,
       (PostBatch h m s corr (.ok reqs)).1 = .ok 200 resp) ∧
    (∀ e : String, (PostBatch h m s corr (.error e)).1 =
       .errJson 400 "error" "invalid batch body" e corr) :=
  ⟨fun _ => ⟨_, rfl⟩, fun _ => rfl⟩

/-- C9: the `event` field echoed in every outcome is the originally
submitted event — in a batch the `j`-th result echoes the `j`-th input
event, and the single handler's response body echoes the submitted
event. -/
theorem outcome_echoes_event (h : EventHandler) (m : MarshalFn) (s : SendFn)
    (corr : String) :
    (∀ (reqs : List EventRequest) (j : Nat), ∃ resp sends,
       PostBatch h m s corr (.ok reqs) = (.ok 200 resp, sends) ∧
       resp.results[j]?.map BatchItemResult.event = reqs[j]?.map some) ∧
    (∀ (req : EventRequest) (st : Nat) (resp : EventResponse),
       (PostEvent h m s corr (.ok req)).1 = .ok st resp →
       resp.event = some req) := by
  constructor
  · intro reqs j
    refine ⟨_, _, rfl, ?_⟩
    have hj := batchLoop_getElem? h m s corr 0 reqs j
    simp only [Nat.zero_add] at hj
    simp only [hj, Option.map_map]
    cases hr : reqs[j]? with
    | none => rfl
    | some req =>
      simp [Function.comp, (processItem_projections h m s corr j req).2.2]
  · intro req st resp hresp
    simp only [PostEvent] at hresp
    split at hresp
    · cases hresp
    · split at hresp
      · cases hresp
      · split at hresp
        · obtain ⟨-, h2⟩ := SingleReply.ok.injEq .. ▸ hresp
          subst h2
          rfl
        · split at hresp
          · cases hresp
          · obtain ⟨-, h2⟩ := SingleReply.ok.injEq .. ▸ hresp
            subst h2
            rfl

/-- Witness for C9: a concrete dry-run dispatch whose response body echoes
the submitted event. -/
theorem outcome_echoes_event_witness :
    ({ status := "dry-run", topic := "main-topic", bytes := 1,
       dryRun := true, correlationID := "c", messageID := "",
       event := some ⟨"OTHER_EVENT", "sys", []⟩ } : EventResponse).event =
      some (⟨"OTHER_EVENT", "sys", []⟩ : EventRequest) :=
  (outcome_echoes_event (NewEventHandler "main-topic" true [])
    (fun _ => .ok [7]) (fun _ => .ok "mid") "c").2
    ⟨"OTHER_EVENT", "sys", []⟩ 200
    { status := "dry-run", topic := "main-topic", bytes := 1,
      dryRun := true, correlationID := "c", messageID := "",
      event := some ⟨"OTHER_EVENT", "sys", []⟩ } rfl

/-- C10: two handler configurations that differ only in the `SchemaMap`
passed to `NewEventHandler` answer every single-event and every batch
request identically — the schema map never influences any outcome. -/
theorem schemaMap_noninterference (t : String)
    (sm1 sm2 : List (String × String)) (dr : Bool) (m : MarshalFn)
    (s : SendFn) (corr : String) :
    (∀ d : Except String EventRequest,
       PostEvent (NewEventHandler t dr sm1) m s corr d =
       PostEvent (NewEventHandler t dr sm2) m s corr d) ∧
    (∀ d : Except String (List EventRequest),
       PostBatch (NewEventHandler t dr sm1) m s corr d =
       PostBatch (NewEventHandler t dr sm2) m s corr d) := by
  have hproc : ∀ (i : Nat) (req : EventRequest),
      processItem (NewEventHandler t dr sm1) m s corr i req =
      processItem (NewEventHandler t dr sm2) m s corr i req :=
    fun _ _ => rfl
  have hloop : ∀ (i : Nat) (reqs : List EventRequest),
      batchLoop (NewEventHandler t dr sm1) m s corr i reqs =
      batchLoop (NewEventHandler t dr sm2) m s corr i reqs := by
    intro i reqs
    induction reqs generalizing i with
    | nil => rfl
    | cons req rest ih => simp [batchLoop, ih, hproc]
  constructor
  · intro d
    cases d with
    | error e => rfl
    | ok req => rfl
  · intro d
    cases d with
    | error e => rfl
    | ok reqs =>
      have h0 := hloop 0 reqs
      simp only [NewEventHandler] at h0
      simp [PostBatch, NewEventHandler, h0]

end PulsarApi
